import Mathlib

/-!
# Verification of the PQFE hybrid encryption system

Shallow embedding of the PQFE sources (`src/api.py`, `src/symmetric.py`,
`src/file_ops.py`, `src/key_management.py`, `src/dilithium_signatures.py`,
`src/kyber_encryption.py`) together with proofs of the specification claims.

Byte strings are modelled as `List Nat` (one entry per byte).  Python
functions that can raise are modelled in `Except PyErr`; the randomness
consumed by a call (`os.urandom(12)` nonces, KEM encapsulation coins) is
passed as an explicit argument.  The external collaborators (the `oqs`
KEM/signature provider, the `cryptography` AEAD provider, `hashlib`,
`json`) are out of scope of the repository and are modelled as abstract
function parameters constrained only by their interface contracts.
-/

/-- Byte strings (Python `bytes`): a list of byte values. -/
abbrev Bytes := List Nat

/-- Python exceptions that the modelled code can raise. -/
inductive PyErr where
  /-- `ValueError` with its message. -/
  | valueError (msg : String)
  /-- `TypeError` raised by the interpreter on a bad call. -/
  | typeError (msg : String)
  /-- `AttributeError` raised on a missing attribute lookup. -/
  | attributeError (msg : String)
  /-- `cryptography.exceptions.InvalidTag`: AEAD authentication failure. -/
  | invalidTag
  deriving DecidableEq, Repr

/-! ## External AEAD provider (`cryptography.hazmat.primitives.ciphers.aead`)

The `AESGCM` / `ChaCha20Poly1305` objects are external collaborators; the
repository consumes them as `encrypt(nonce, data, aad) -> ct` and
`decrypt(nonce, ct, aad) -> pt` (raising `InvalidTag` on authentication
failure, modelled as `none`).  The key the object was constructed with is
the first argument here. -/
structure AEADPrim where
  /-- `Cipher(key).encrypt(nonce, data, aad)`. -/
  encryptPrim : Bytes → Bytes → Option Bytes → Bytes → Bytes
  /-- `Cipher(key).decrypt(nonce, ct, aad)`; `none` models `InvalidTag`. -/
  decryptPrim : Bytes → Bytes → Option Bytes → Bytes → Option Bytes

/-! ## `src/symmetric.py` -/

/-- `AES256GCMCipher.encrypt` (symmetric.py lines 26-33).  `nonce` is the
value drawn by `os.urandom(12)` for this call, passed explicitly. -/
def aes256gcm_encrypt (prim : AEADPrim) (nonce data key : Bytes) :
    Except PyErr Bytes :=
  if key.length < 32 then
    .error (.valueError "Key must be at least 32 bytes for AES-256-GCM.")
  else
    .ok (nonce ++ prim.encryptPrim (key.take 32) nonce none data)

/-- `AES256GCMCipher.decrypt` (symmetric.py lines 35-41). -/
def aes256gcm_decrypt (prim : AEADPrim) (data key : Bytes) :
    Except PyErr Bytes :=
  if key.length < 32 then
    .error (.valueError "Key must be at least 32 bytes for AES-256-GCM.")
  else
    match prim.decryptPrim (key.take 32) (data.take 12) none (data.drop 12) with
    | some pt => .ok pt
    | none => .error .invalidTag

/-- `ChaCha20Poly1305Cipher.encrypt` (symmetric.py lines 49-56). -/
def chacha20poly1305_encrypt (prim : AEADPrim) (nonce data key : Bytes) :
    Except PyErr Bytes :=
  if key.length < 32 then
    .error (.valueError "Key must be at least 32 bytes for ChaCha20-Poly1305.")
  else
    .ok (nonce ++ prim.encryptPrim (key.take 32) nonce none data)

/-- `ChaCha20Poly1305Cipher.decrypt` (symmetric.py lines 58-64). -/
def chacha20poly1305_decrypt (prim : AEADPrim) (data key : Bytes) :
    Except PyErr Bytes :=
  if key.length < 32 then
    .error (.valueError "Key must be at least 32 bytes for ChaCha20-Poly1305.")
  else
    match prim.decryptPrim (key.take 32) (data.take 12) none (data.drop 12) with
    | some pt => .ok pt
    | none => .error .invalidTag

/-- The two supported ciphers (`get_cipher_instance`). -/
inductive CipherName where
  | aes256gcm
  | chacha20poly1305
  deriving DecidableEq, Repr

/-- Dispatch `cipher.encrypt` over the selected cipher instance. -/
def cipher_encrypt : CipherName → AEADPrim → Bytes → Bytes → Bytes →
    Except PyErr Bytes
  | .aes256gcm => aes256gcm_encrypt
  | .chacha20poly1305 => chacha20poly1305_encrypt

/-- Dispatch `cipher.decrypt` over the selected cipher instance. -/
def cipher_decrypt : CipherName → AEADPrim → Bytes → Bytes →
    Except PyErr Bytes
  | .aes256gcm => aes256gcm_decrypt
  | .chacha20poly1305 => chacha20poly1305_decrypt

/-- C6: for every plaintext, every key of at least 32 bytes, and both
supported ciphers, AEAD encrypt with a 12-byte (96-bit) fresh nonce invokes
the cipher primitive with no associated data (`none`) and returns the
concatenation `nonce ++ ciphertext‖tag`; assuming the AEAD provider's
contract that ciphertext‖tag is 16 bytes longer than the plaintext, the
returned blob is `plaintext length + 12 + 16` bytes long. -/
theorem aead_encrypt_blob_layout (prim : AEADPrim) (nonce data key : Bytes)
    (hn : nonce.length = 12) (hk : 32 ≤ key.length)
    (htag : ∀ k n a d, (prim.encryptPrim k n a d).length = d.length + 16) :
    (aes256gcm_encrypt prim nonce data key =
        .ok (nonce ++ prim.encryptPrim (key.take 32) nonce none data) ∧
      (nonce ++ prim.encryptPrim (key.take 32) nonce none data).length =
        data.length + 12 + 16) ∧
    (chacha20poly1305_encrypt prim nonce data key =
        .ok (nonce ++ prim.encryptPrim (key.take 32) nonce none data) ∧
      (nonce ++ prim.encryptPrim (key.take 32) nonce none data).length =
        data.length + 12 + 16) := by
  have hnot : ¬ key.length < 32 := Nat.not_lt.mpr hk
  have hlen : (nonce ++ prim.encryptPrim (key.take 32) nonce none data).length =
      data.length + 12 + 16 := by
    rw [List.length_append, hn, htag]
    omega
  refine ⟨⟨?_, hlen⟩, ⟨?_, hlen⟩⟩
  · simp [aes256gcm_encrypt, hnot]
  · simp [chacha20poly1305_encrypt, hnot]

/-- Closed witness for `aead_encrypt_blob_layout` at a concrete input. -/
theorem aead_encrypt_blob_layout_witness :
    aes256gcm_encrypt ⟨fun _ _ _ d => d ++ List.replicate 16 0, fun _ _ _ c => some c⟩
      (List.replicate 12 7) [1, 2, 3] (List.replicate 32 9) =
      .ok (List.replicate 12 7 ++ ([1, 2, 3] ++ List.replicate 16 0)) := by
  have h := aead_encrypt_blob_layout
    ⟨fun _ _ _ d => d ++ List.replicate 16 0, fun _ _ _ c => some c⟩
    (List.replicate 12 7) [1, 2, 3] (List.replicate 32 9)
    (by decide) (by decide)
    (by intro k n a d; simp)
  exact h.1.1

/-- C7: for both supported ciphers, `encrypt` and `decrypt` raise
`ValueError` (a configuration error) exactly when the key is shorter than
32 bytes; with a key of at least 32 bytes, `encrypt` succeeds and
`decrypt` never raises a `ValueError` (it can only fail with the distinct
`InvalidTag` authentication error). -/
theorem aead_short_key_rejection (prim : AEADPrim) (nonce data key : Bytes) :
    (key.length < 32 →
      aes256gcm_encrypt prim nonce data key =
          .error (.valueError "Key must be at least 32 bytes for AES-256-GCM.") ∧
        aes256gcm_decrypt prim data key =
          .error (.valueError "Key must be at least 32 bytes for AES-256-GCM.") ∧
        chacha20poly1305_encrypt prim nonce data key =
          .error (.valueError "Key must be at least 32 bytes for ChaCha20-Poly1305.") ∧
        chacha20poly1305_decrypt prim data key =
          .error (.valueError "Key must be at least 32 bytes for ChaCha20-Poly1305.")) ∧
    (32 ≤ key.length →
      (∃ b, aes256gcm_encrypt prim nonce data key = .ok b) ∧
        (∃ b, chacha20poly1305_encrypt prim nonce data key = .ok b) ∧
        (∀ msg, aes256gcm_decrypt prim data key ≠ .error (.valueError msg)) ∧
        (∀ msg, chacha20poly1305_decrypt prim data key ≠ .error (.valueError msg))) := by
  constructor
  · intro hlt
    refine ⟨?_, ?_, ?_, ?_⟩ <;>
      simp [aes256gcm_encrypt, aes256gcm_decrypt,
        chacha20poly1305_encrypt, chacha20poly1305_decrypt, hlt]
  · intro hge
    have hnot : ¬ key.length < 32 := Nat.not_lt.mpr hge
    refine ⟨⟨nonce ++ prim.encryptPrim (key.take 32) nonce none data, ?_⟩,
      ⟨nonce ++ prim.encryptPrim (key.take 32) nonce none data, ?_⟩, ?_, ?_⟩
    · simp [aes256gcm_encrypt, hnot]
    · simp [chacha20poly1305_encrypt, hnot]
    · intro msg
      simp only [aes256gcm_decrypt, hnot, if_false]
      cases prim.decryptPrim (key.take 32) (data.take 12) none (data.drop 12) <;> simp
    · intro msg
      simp only [chacha20poly1305_decrypt, hnot, if_false]
      cases prim.decryptPrim (key.take 32) (data.take 12) none (data.drop 12) <;> simp

/-- Closed witness for `aead_short_key_rejection`: both the short-key branch
(31-byte key) and the long-key branch (32-byte key) at concrete inputs. -/
theorem aead_short_key_rejection_witness :
    aes256gcm_encrypt ⟨fun _ _ _ d => d, fun _ _ _ c => some c⟩
        [0, 1] [5] (List.replicate 31 2) =
      .error (.valueError "Key must be at least 32 bytes for AES-256-GCM.") ∧
    (∃ b, aes256gcm_encrypt ⟨fun _ _ _ d => d, fun _ _ _ c => some c⟩
        [0, 1] [5] (List.replicate 32 2) = .ok b) := by
  constructor
  · exact ((aead_short_key_rejection ⟨fun _ _ _ d => d, fun _ _ _ c => some c⟩
      [0, 1] [5] (List.replicate 31 2)).1 (by decide)).1
  · exact ((aead_short_key_rejection ⟨fun _ _ _ d => d, fun _ _ _ c => some c⟩
      [0, 1] [5] (List.replicate 32 2)).2 (by decide)).1

/-! ## `PQFE.encrypt_data` / `PQFE.decrypt_data` (`src/api.py` lines 277-299)

The `oqs.KeyEncapsulation` provider is external; per the interface
contract it is consumed only as `encap_secret(public_key) -> (ct, ss)`
and (constructed with the private key) `decap_secret(ct) -> ss`.  The
randomness of encapsulation is folded into the abstract `kemEncap`
function; quantifying over all such functions covers every random
outcome.  Both operations run on the same `PQFE` instance, hence with the
same Kyber variant and the same `self.encryptor.cipher`. -/

/-- Result dict of `PQFE.encrypt_data` (api.py line 289). -/
structure EncryptDataResult where
  encrypted_data : Bytes
  ciphertext : Bytes
  shared_secret : Bytes
  deriving DecidableEq, Repr

/-- Result dict of `PQFE.decrypt_data` (api.py line 299). -/
structure DecryptDataResult where
  decrypted_data : Bytes
  deriving DecidableEq, Repr

/-- `PQFE.encrypt_data` (api.py lines 277-289): encapsulate against the
public key, then symmetrically encrypt under the first 32 bytes of the
shared secret.  `kemEncap` models `oqs.KeyEncapsulation(variant).encap_secret`
(randomness folded in); `nonce` is the `os.urandom(12)` value drawn by the
cipher. -/
def pqfe_encrypt_data (kemEncap : Bytes → Bytes × Bytes)
    (c : CipherName) (prim : AEADPrim) (nonce data public_key : Bytes) :
    Except PyErr EncryptDataResult :=
  let ciphertext := (kemEncap public_key).1
  let shared_secret := (kemEncap public_key).2
  match cipher_encrypt c prim nonce data (shared_secret.take 32) with
  | .error e => .error e
  | .ok encrypted_data =>
      .ok ⟨encrypted_data, ciphertext, shared_secret⟩

/-- `PQFE.decrypt_data` (api.py lines 291-299): decapsulate the KEM
ciphertext with the private key, then symmetrically decrypt under the
first 32 bytes of the recovered shared secret.  `kemDecap` models
`oqs.KeyEncapsulation(variant, private_key).decap_secret`. -/
def pqfe_decrypt_data (kemDecap : Bytes → Bytes → Bytes)
    (c : CipherName) (prim : AEADPrim)
    (encrypted_data ciphertext private_key : Bytes) :
    Except PyErr DecryptDataResult :=
  let shared_secret := kemDecap private_key ciphertext
  match cipher_decrypt c prim encrypted_data (shared_secret.take 32) with
  | .error e => .error e
  | .ok decrypted_data => .ok ⟨decrypted_data⟩

/-- C1: for every payload, every matching keypair (the KEM provider
contract: decapsulating the encapsulation ciphertext with the matching
private key recovers the same shared secret, and shared secrets are at
least 32 bytes), either supported cipher, and an AEAD provider satisfying
its round-trip contract, `decrypt_data` applied to the `encrypted_data`
and `ciphertext` returned by `encrypt_data` returns exactly the original
payload. -/
theorem encrypt_decrypt_data_roundtrip (kemEncap : Bytes → Bytes × Bytes)
    (kemDecap : Bytes → Bytes → Bytes) (c : CipherName) (prim : AEADPrim)
    (nonce data public_key private_key : Bytes)
    (hkem : kemDecap private_key (kemEncap public_key).1 = (kemEncap public_key).2)
    (hss : 32 ≤ (kemEncap public_key).2.length)
    (hnonce : nonce.length = 12)
    (hprim : ∀ k n a d, prim.decryptPrim k n a (prim.encryptPrim k n a d) = some d) :
    ∀ r, pqfe_encrypt_data kemEncap c prim nonce data public_key = .ok r →
      pqfe_decrypt_data kemDecap c prim r.encrypted_data r.ciphertext private_key =
        .ok ⟨data⟩ := by
  intro r hr
  have hkey : ((kemEncap public_key).2.take 32).length = 32 := by
    rw [List.length_take]
    omega
  have hnot : ¬ ((kemEncap public_key).2.take 32).length < 32 := by omega
  have hblob : r.encrypted_data =
      nonce ++ prim.encryptPrim (((kemEncap public_key).2.take 32).take 32) nonce none data ∧
      r.ciphertext = (kemEncap public_key).1 := by
    cases c <;>
      simp only [pqfe_encrypt_data, cipher_encrypt, aes256gcm_encrypt,
        chacha20poly1305_encrypt, hnot, if_false, Except.ok.injEq] at hr <;>
      exact ⟨by rw [← hr], by rw [← hr]⟩
  have htake : (nonce ++ prim.encryptPrim (((kemEncap public_key).2.take 32).take 32)
      nonce none data).take 12 = nonce := by
    rw [← hnonce, List.take_left]
  have hdrop : (nonce ++ prim.encryptPrim (((kemEncap public_key).2.take 32).take 32)
      nonce none data).drop 12 =
      prim.encryptPrim (((kemEncap public_key).2.take 32).take 32) nonce none data := by
    rw [← hnonce, List.drop_left]
  cases c <;>
    simp only [pqfe_decrypt_data, cipher_decrypt, aes256gcm_decrypt,
      chacha20poly1305_decrypt, hblob.1, hblob.2, hkem, hnot, if_false,
      htake, hdrop, hprim]

/-- Closed witness for `encrypt_decrypt_data_roundtrip`: a concrete toy KEM
and AEAD provider satisfying the interface contracts, a concrete payload. -/
theorem encrypt_decrypt_data_roundtrip_witness :
    pqfe_decrypt_data (fun _ _ => List.replicate 32 5) .aes256gcm
      ⟨fun _ _ _ d => d, fun _ _ _ c => some c⟩
      (List.replicate 12 0 ++ [4, 5, 6]) [9, 1] [8] = .ok ⟨[4, 5, 6]⟩ := by
  have h := encrypt_decrypt_data_roundtrip
    (fun pub => (pub ++ [1], List.replicate 32 5)) (fun _ _ => List.replicate 32 5)
    .aes256gcm ⟨fun _ _ _ d => d, fun _ _ _ c => some c⟩
    (List.replicate 12 0) [4, 5, 6] [9] [8]
    (by rfl) (by decide) (by decide) (fun k n a d => rfl)
  exact h ⟨List.replicate 12 0 ++ [4, 5, 6], [9, 1], List.replicate 32 5⟩ (by rfl)

/-! ## `DilithiumSignature.verify_signature` (`src/dilithium_signatures.py` lines 61-82)

`hashlib.sha3_384(data).digest()` and `oqs.Signature(variant).verify` are
external collaborators, modelled as abstract functions.  The `oqs` verify
call can raise (malformed signature or public key), which the model
expresses as `Except PyErr Bool`; the digest computation on `bytes` never
raises and sits outside the `try` block in the source. -/

/-- The Python `try: ... except Exception: return False` wrapper around
the verification call (dilithium_signatures.py lines 76-82): any raised
exception is absorbed and replaced by the return value `False`. -/
def tryExceptFalse (act : Except PyErr Bool) : Except PyErr Bool :=
  match act with
  | .ok v => .ok v
  | .error _ => .ok false

/-- `DilithiumSignature.verify_signature` (dilithium_signatures.py lines
61-82): hash the data with SHA3-384, then verify inside a `try` block that
turns every exception into `False`.  `oqsVerify digest signature
public_key` models `oqs.Signature(variant).verify(...)`. -/
def verify_signature (oqsVerify : Bytes → Bytes → Bytes → Except PyErr Bool)
    (sha3_384 : Bytes → Bytes) (data signature public_key : Bytes) :
    Except PyErr Bool :=
  let data_hash := sha3_384 data
  tryExceptFalse (oqsVerify data_hash signature public_key)

/-- C5: for every data, signature and public key (including adversarial
ones, i.e. for every behaviour of the external verification primitive),
`verify_signature` never propagates an exception — it always returns a
boolean — and whenever the verification primitive raises an internal
error, the returned boolean is `false`. -/
theorem verify_signature_never_raises
    (oqsVerify : Bytes → Bytes → Bytes → Except PyErr Bool)
    (sha3_384 : Bytes → Bytes) (data signature public_key : Bytes) :
    (∃ b, verify_signature oqsVerify sha3_384 data signature public_key = .ok b) ∧
    (∀ e, oqsVerify (sha3_384 data) signature public_key = .error e →
      verify_signature oqsVerify sha3_384 data signature public_key = .ok false) := by
  constructor
  · cases h : oqsVerify (sha3_384 data) signature public_key with
    | ok b => exact ⟨b, by simp [verify_signature, tryExceptFalse, h]⟩
    | error e => exact ⟨false, by simp [verify_signature, tryExceptFalse, h]⟩
  · intro e he
    simp [verify_signature, tryExceptFalse, he]

/-- Closed witness for `verify_signature_never_raises`: a primitive that
always raises is absorbed into the boolean result `false`. -/
theorem verify_signature_never_raises_witness :
    verify_signature (fun _ _ _ => .error (.valueError "malformed key"))
      (fun d => d) [1] [2] [3] = .ok false :=
  (verify_signature_never_raises (fun _ _ _ => .error (.valueError "malformed key"))
    (fun d => d) [1] [2] [3]).2 (.valueError "malformed key") rfl

/-! ## `src/key_management.py`

The filesystem is modelled as a partial map from paths to file contents;
`Path(directory) / name` is string concatenation with a `/` separator.
`os.chmod` changes no file contents (and its failure is swallowed by the
source), so it does not appear in the state transformer. -/

/-- `Path(directory) / name`. -/
def joinPath (directory name : String) : String := directory ++ "/" ++ name

/-- The public-key filename for a key purpose (key_management.py lines
27-33: `"signature"` selects the signature filenames, anything else
defaults to the encryption filenames). -/
def pubKeyFileName (key_type : String) : String :=
  if key_type = "signature" then "signature_public_key.bin"
  else "encryption_public_key.bin"

/-- The private-key filename for a key purpose. -/
def privKeyFileName (key_type : String) : String :=
  if key_type = "signature" then "signature_private_key.bin"
  else "encryption_private_key.bin"

/-- `load_keys` (key_management.py lines 48-79): if either key file is
missing, return the explicit absent pair `(None, None)`; otherwise return
both files' contents.  `fs` maps a path to `some contents` when the file
exists. -/
def load_keys (fs : String → Option Bytes) (key_directory key_type : String) :
    Option Bytes × Option Bytes :=
  let pub_key_path := joinPath key_directory (pubKeyFileName key_type)
  let priv_key_path := joinPath key_directory (privKeyFileName key_type)
  match fs pub_key_path, fs priv_key_path with
  | some public_key, some private_key => (some public_key, some private_key)
  | some _, none => (none, none)
  | none, _ => (none, none)

/-- `save_keys` (key_management.py lines 10-46) as a filesystem
transformer: write the public key and the private key to the two
fixed purpose-specific paths, leaving every other path untouched. -/
def save_keys (fs : String → Option Bytes) (public_key private_key : Bytes)
    (key_directory key_type : String) : String → Option Bytes :=
  let pub_key_path := joinPath key_directory (pubKeyFileName key_type)
  let priv_key_path := joinPath key_directory (privKeyFileName key_type)
  fun p =>
    if p = priv_key_path then some private_key
    else if p = pub_key_path then some public_key
    else fs p

/-- C8: for every filesystem, directory and key purpose, `load_keys`
returns the explicit absent pair `(none, none)` — not an error — whenever
either the public-key file or the private-key file for that purpose is
missing, and returns both files' contents when both exist. -/
theorem load_keys_absent_or_present (fs : String → Option Bytes)
    (key_directory key_type : String) :
    ((fs (joinPath key_directory (pubKeyFileName key_type)) = none ∨
        fs (joinPath key_directory (privKeyFileName key_type)) = none) →
      load_keys fs key_directory key_type = (none, none)) ∧
    (∀ pub priv,
      fs (joinPath key_directory (pubKeyFileName key_type)) = some pub →
      fs (joinPath key_directory (privKeyFileName key_type)) = some priv →
      load_keys fs key_directory key_type = (some pub, some priv)) := by
  constructor
  · rintro (h | h)
    · simp only [load_keys]
      rw [h]
    · simp only [load_keys]
      rw [h]
      cases fs (joinPath key_directory (pubKeyFileName key_type)) <;> rfl
  · intro pub priv hpub hpriv
    simp only [load_keys]
    rw [hpub, hpriv]

/-- Closed witness for `load_keys_absent_or_present`: a filesystem with
only the encryption public key present yields `(none, none)`; one with
both files yields their contents. -/
theorem load_keys_absent_or_present_witness :
    load_keys (fun p => if p = "d/encryption_public_key.bin" then some [1] else none)
      "d" "encryption" = (none, none) ∧
    load_keys (fun p =>
        if p = "d/encryption_public_key.bin" then some [1]
        else if p = "d/encryption_private_key.bin" then some [2] else none)
      "d" "encryption" = (some [1], some [2]) := by
  constructor
  · exact (load_keys_absent_or_present
      (fun p => if p = "d/encryption_public_key.bin" then some [1] else none)
      "d" "encryption").1 (Or.inr (by decide))
  · exact (load_keys_absent_or_present
      (fun p =>
        if p = "d/encryption_public_key.bin" then some [1]
        else if p = "d/encryption_private_key.bin" then some [2] else none)
      "d" "encryption").2 [1] [2] (by decide) (by decide)

/-- Joining the same directory with two different file names yields two
different paths. -/
theorem joinPath_ne_of_name_ne (d : String) {a b : String} (h : a ≠ b) :
    joinPath d a ≠ joinPath d b := by
  intro heq
  apply h
  have hdata := congrArg String.data heq
  simp only [joinPath, String.data_append] at hdata
  exact String.ext (List.append_cancel_left hdata)

/-- C9: `save_keys` writes only the two fixed filenames of the given
purpose: every path other than the saved purpose's public- and
private-key paths keeps its previous contents; in particular saving
signature keys leaves both encryption key files unchanged and saving
encryption keys leaves both signature key files unchanged. -/
theorem save_keys_other_purpose_untouched (fs : String → Option Bytes)
    (public_key private_key : Bytes) (key_directory : String) :
    (∀ key_type p,
      p ≠ joinPath key_directory (pubKeyFileName key_type) →
      p ≠ joinPath key_directory (privKeyFileName key_type) →
      save_keys fs public_key private_key key_directory key_type p = fs p) ∧
    (save_keys fs public_key private_key key_directory "signature"
        (joinPath key_directory "encryption_public_key.bin") =
      fs (joinPath key_directory "encryption_public_key.bin")) ∧
    (save_keys fs public_key private_key key_directory "signature"
        (joinPath key_directory "encryption_private_key.bin") =
      fs (joinPath key_directory "encryption_private_key.bin")) ∧
    (save_keys fs public_key private_key key_directory "encryption"
        (joinPath key_directory "signature_public_key.bin") =
      fs (joinPath key_directory "signature_public_key.bin")) ∧
    (save_keys fs public_key private_key key_directory "encryption"
        (joinPath key_directory "signature_private_key.bin") =
      fs (joinPath key_directory "signature_private_key.bin")) := by
  have frame : ∀ key_type p,
      p ≠ joinPath key_directory (pubKeyFileName key_type) →
      p ≠ joinPath key_directory (privKeyFileName key_type) →
      save_keys fs public_key private_key key_directory key_type p = fs p := by
    intro key_type p hpub hpriv
    simp only [save_keys]
    rw [if_neg hpriv, if_neg hpub]
  refine ⟨frame, ?_, ?_, ?_, ?_⟩
  · exact frame "signature" _
      (joinPath_ne_of_name_ne key_directory (by decide))
      (joinPath_ne_of_name_ne key_directory (by decide))
  · exact frame "signature" _
      (joinPath_ne_of_name_ne key_directory (by decide))
      (joinPath_ne_of_name_ne key_directory (by decide))
  · exact frame "encryption" _
      (joinPath_ne_of_name_ne key_directory (by decide))
      (joinPath_ne_of_name_ne key_directory (by decide))
  · exact frame "encryption" _
      (joinPath_ne_of_name_ne key_directory (by decide))
      (joinPath_ne_of_name_ne key_directory (by decide))

/-- Closed witness for `save_keys_other_purpose_untouched`: saving
signature keys over a concrete filesystem leaves a concrete encryption
key file intact. -/
theorem save_keys_other_purpose_untouched_witness :
    save_keys (fun p => if p = "d/encryption_public_key.bin" then some [3] else none)
      [7] [8] "d" "signature" "d/encryption_public_key.bin" = some [3] := by
  have h := (save_keys_other_purpose_untouched
    (fun p => if p = "d/encryption_public_key.bin" then some [3] else none)
    [7] [8] "d").1 "signature" "d/encryption_public_key.bin"
    (by decide) (by decide)
  rw [h]
  decide

/-! ## `src/file_ops.py`: envelope framing

`write_encrypted_file` (lines 37-61) writes `encrypted_content`, a
newline byte, and `json.dumps({'ciphertext': ciphertext.hex(),
'metadata': metadata})`.  `read_encrypted_file` (lines 63-78) splits the
file at the FIRST newline (`content.split(b'\n', 1)`), parses the second
part as JSON and hex-decodes the `ciphertext` field.  `bytes.hex()` /
`bytes.fromhex` are implemented concretely below; the Python `json`
module is external and is modelled by a serializer/parser pair over an
arbitrary metadata type, constrained at the used record by the contract
`loads (dumps r) = r`. -/

/-- Lowercase hex digit for a value below 16 (`bytes.hex()` output
alphabet: `0`-`9`, `a`-`f`). -/
def hexDigitChar (n : Nat) : Char :=
  if n < 10 then Char.ofNat (48 + n) else Char.ofNat (87 + n)

/-- The character sequence of `bytes.hex()`: two lowercase hex digits per
byte, most significant first. -/
def bytesHexChars : List Nat → List Char
  | [] => []
  | b :: bs => hexDigitChar (b / 16) :: hexDigitChar (b % 16) :: bytesHexChars bs

/-- `bytes.hex()`: the hex string of a byte string. -/
def hexEncode (bs : Bytes) : String := String.mk (bytesHexChars bs)

/-- Value of a single hex digit character (`bytes.fromhex` accepts both
cases). -/
def hexDigitVal (c : Char) : Option Nat :=
  if 48 ≤ c.toNat ∧ c.toNat ≤ 57 then some (c.toNat - 48)
  else if 97 ≤ c.toNat ∧ c.toNat ≤ 102 then some (c.toNat - 87)
  else if 65 ≤ c.toNat ∧ c.toNat ≤ 70 then some (c.toNat - 55)
  else none

/-- `bytes.fromhex` on a character list: consume two hex digits per byte;
`none` models the `ValueError` on malformed input. -/
def hexDecodeChars : List Char → Option Bytes
  | [] => some []
  | [_] => none
  | c1 :: c2 :: rest =>
    match hexDigitVal c1, hexDigitVal c2, hexDecodeChars rest with
    | some hi, some lo, some tl => some ((16 * hi + lo) :: tl)
    | _, _, _ => none

/-- `bytes.fromhex` on a string. -/
def hexDecode (s : String) : Option Bytes := hexDecodeChars s.data

/-- Decoding a single encoded hex digit recovers its value. -/
theorem hexDigitVal_hexDigitChar : ∀ n, n < 16 →
    hexDigitVal (hexDigitChar n) = some n := by decide

/-- `fromhex` inverts `hex()` on genuine byte strings. -/
theorem hexDecodeChars_bytesHexChars (bs : Bytes) (h : ∀ b ∈ bs, b < 256) :
    hexDecodeChars (bytesHexChars bs) = some bs := by
  induction bs with
  | nil => rfl
  | cons b tl ih =>
    have hb : b < 256 := h b (List.mem_cons_self b tl)
    have hhi : b / 16 < 16 := (Nat.div_lt_iff_lt_mul (by norm_num)).mpr (by omega)
    have hlo : b % 16 < 16 := Nat.mod_lt _ (by norm_num)
    simp only [bytesHexChars, hexDecodeChars,
      hexDigitVal_hexDigitChar _ hhi, hexDigitVal_hexDigitChar _ hlo,
      ih (fun x hx => h x (List.mem_cons_of_mem b hx)), Nat.div_add_mod]

/-- `bytes.fromhex (bs.hex())` recovers `bs` for byte values below 256. -/
theorem hexDecode_hexEncode (bs : Bytes) (h : ∀ b ∈ bs, b < 256) :
    hexDecode (hexEncode bs) = some bs :=
  hexDecodeChars_bytesHexChars bs h

/-- `content.split(b'\n', 1)` followed by the two-element unpacking:
`some (before, after)` at the first occurrence of `sep`, `none` when
`sep` does not occur (the unpacking then raises `ValueError`). -/
def splitFirst (sep : Nat) : Bytes → Option (Bytes × Bytes)
  | [] => none
  | b :: bs =>
    if b = sep then some ([], bs)
    else
      match splitFirst sep bs with
      | none => none
      | some (pre, post) => some (b :: pre, post)

/-- Splitting at the separator placed after a separator-free prefix
recovers the prefix and the suffix. -/
theorem splitFirst_append (content rest : Bytes) (h : 10 ∉ content) :
    splitFirst 10 (content ++ 10 :: rest) = some (content, rest) := by
  induction content with
  | nil => simp [splitFirst]
  | cons b tl ih =>
    rw [List.mem_cons] at h
    push_neg at h
    have hb : ¬ b = 10 := fun hb => h.1 hb.symm
    rw [List.cons_append]
    simp only [splitFirst, hb, if_false, ih h.2]

/-- `write_encrypted_file` (file_ops.py lines 37-61): returns the path
written (`file_path + ".enc"`) and the file contents: the encrypted
payload, a newline separator, and the JSON record
`{'ciphertext': ciphertext.hex(), 'metadata': metadata}` produced by the
external `json.dumps`, modelled by `jsonDumps`. -/
def write_encrypted_file {M : Type} (jsonDumps : String → M → Bytes)
    (file_path : String) (encrypted_content ciphertext : Bytes) (metadata : M) :
    String × Bytes :=
  (file_path ++ ".enc",
    encrypted_content ++ 10 :: jsonDumps (hexEncode ciphertext) metadata)

/-- `read_encrypted_file` (file_ops.py lines 63-78): split the file at
the first newline, parse the tail with the external `json.loads`
(modelled by `jsonLoads`, yielding the `ciphertext` hex string and the
`metadata` value), hex-decode the ciphertext, and return the triple. -/
def read_encrypted_file {M : Type} (jsonLoads : Bytes → Option (String × M))
    (fileContent : Bytes) : Option (Bytes × Bytes × M) :=
  match splitFirst 10 fileContent with
  | none => none
  | some (encrypted_content, metadata_json) =>
    match jsonLoads metadata_json with
    | none => none
    | some (cthex, metadata) =>
      match hexDecode cthex with
      | none => none
      | some ciphertext => some (encrypted_content, ciphertext, metadata)

/-- C2 (counterexample to the claim as stated): the file-framing
round-trip fails for an encrypted payload that itself contains the
newline byte.  With payload `[10]`, empty KEM ciphertext and trivial
metadata — and a JSON model that satisfies the `loads (dumps r) = r`
contract at the record actually written (third conjunct) and, like
Python's `json.loads`, tolerates leading newline whitespace —
`read_encrypted_file` recovers the empty payload instead of `[10]`. -/
theorem write_read_encrypted_file_newline_counterexample :
    read_encrypted_file
        (fun bs => if bs.dropWhile (fun b => b == 10) = [] then some ("", ()) else none)
        (write_encrypted_file (fun _ _ => ([] : Bytes)) "f" [10] [] ()).2 =
      some ([], [], ()) ∧
    read_encrypted_file
        (fun bs => if bs.dropWhile (fun b => b == 10) = [] then some ("", ()) else none)
        (write_encrypted_file (fun _ _ => ([] : Bytes)) "f" [10] [] ()).2 ≠
      some ([10], [], ()) ∧
    (fun bs => if bs.dropWhile (fun b => b == 10) = [] then some ("", ()) else none)
        ((fun (_ : String) (_ : Unit) => ([] : Bytes)) (hexEncode []) ()) =
      some (hexEncode [], ()) := by
  refine ⟨by decide, by decide, by decide⟩

/-- C2 (amended): for every encrypted payload that contains no newline
byte, every KEM ciphertext of genuine bytes, and every metadata value,
the persisted envelope consists of the payload, a newline separator and
the JSON record with the hex-encoded ciphertext and the metadata, and
`read_encrypted_file` recovers exactly the original payload, ciphertext
and metadata, provided the external JSON layer satisfies
`loads (dumps r) = r` at the record written. -/
theorem write_read_encrypted_file_roundtrip {M : Type}
    (jsonDumps : String → M → Bytes) (jsonLoads : Bytes → Option (String × M))
    (file_path : String) (encrypted_content ciphertext : Bytes) (metadata : M)
    (hnl : 10 ∉ encrypted_content)
    (hct : ∀ b ∈ ciphertext, b < 256)
    (hjson : jsonLoads (jsonDumps (hexEncode ciphertext) metadata) =
      some (hexEncode ciphertext, metadata)) :
    read_encrypted_file jsonLoads
        (write_encrypted_file jsonDumps file_path encrypted_content ciphertext metadata).2 =
      some (encrypted_content, ciphertext, metadata) := by
  simp only [write_encrypted_file, read_encrypted_file,
    splitFirst_append _ _ hnl, hjson, hexDecode_hexEncode ciphertext hct]

/-- Closed witness for `write_read_encrypted_file_roundtrip` at a
concrete newline-free payload, ciphertext `[0, 255]` and a concrete JSON
model satisfying the contract at the written record. -/
theorem write_read_encrypted_file_roundtrip_witness :
    read_encrypted_file
        (fun bs => if bs = [65] then some (hexEncode [0, 255], ()) else none)
        (write_encrypted_file (fun _ _ => ([65] : Bytes)) "f" [1, 2, 3] [0, 255] ()).2 =
      some ([1, 2, 3], [0, 255], ()) :=
  write_read_encrypted_file_roundtrip
    (fun _ _ => ([65] : Bytes))
    (fun bs => if bs = [65] then some (hexEncode [0, 255], ()) else none)
    "f" [1, 2, 3] [0, 255] ()
    (by decide) (by decide) (by decide)

/-! ## Python call binding and the `PQFE` file pipelines (`src/api.py`)

`PQFE.encrypt_file` / `PQFE.decrypt_file` delegate to
`KyberEncryption.encrypt_file` / `KyberEncryption.decrypt_file`
(`src/kyber_encryption.py`).  Whether such a delegation succeeds is
decided by CPython's argument-binding rules, embedded below: a call binds
when the positional arguments fit the parameter list, every keyword names
a parameter not already bound positionally, and every parameter without a
default is bound.  `kyber_encryption.py` defines `decrypt_file` twice;
Python's class body semantics keep the later definition, embedded by a
last-wins attribute lookup. -/

/-- A Python function signature: the parameter names in order (excluding
`self`) and how many leading parameters have no default value. -/
structure PyFuncSig where
  params : List String
  numRequired : Nat
  deriving DecidableEq, Repr

/-- CPython argument binding for a bound-method call with `npos`
positional arguments and the keyword-argument names `kwargs`: `true` iff
the call raises no `TypeError`. -/
def bindOk (sig : PyFuncSig) (npos : Nat) (kwargs : List String) : Bool :=
  decide (npos ≤ sig.params.length) &&
  kwargs.all (fun k => sig.params.contains k) &&
  kwargs.all (fun k => !(sig.params.take npos).contains k) &&
  ((sig.params.take sig.numRequired).drop npos).all (fun p => kwargs.contains p)

/-- The method definitions executed by the `KyberEncryption` class body,
in source order (kyber_encryption.py): note `decrypt_file` is defined
twice, at lines 97-139 and again at lines 141-193. -/
def kyberEncryptionMethods : List (String × PyFuncSig) :=
  [("generate_keypair", ⟨[], 0⟩),
   ("encrypt_file", ⟨["file_path", "public_key", "output_file", "return_as_data"], 2⟩),
   ("decrypt_file", ⟨["encrypted_file", "private_key", "ciphertext", "output_dir",
      "output_filename", "return_as_data"], 3⟩),
   ("decrypt_file", ⟨["encrypted_file", "private_key", "ciphertext", "output_file",
      "return_as_data"], 2⟩)]

/-- Attribute lookup in a class body: the later definition of a name
shadows the earlier one. -/
def classLookup : List (String × PyFuncSig) → String → Option PyFuncSig
  | [], _ => none
  | (n, sig) :: rest, name =>
    match classLookup rest name with
    | some s => some s
    | none => if n = name then some sig else none

/-- Result dict of `KyberEncryption.decrypt_file` as consumed by
`api.py` (`decrypted_data` / `decrypted_file_path` keys). -/
structure DecryptFileResult where
  decrypted_data : Option Bytes
  decrypted_file_path : Option String
  deriving DecidableEq, Repr

/-- Result dict of `PQFE.encrypt_file` as consumed by `api.py`
(`ciphertext` plus either `encrypted_data` or `encrypted_file_path`). -/
structure EncryptFileResult where
  ciphertext : Bytes
  encrypted_data : Option Bytes
  encrypted_file_path : Option String
  deriving DecidableEq, Repr

/-- Result dict of `PQFE.encrypt_and_sign` (api.py lines 433-452). -/
structure EncryptSignResult where
  ciphertext : Bytes
  encrypted_data : Option Bytes
  encrypted_file_path : Option String
  signature : Bytes
  deriving DecidableEq, Repr

/-- Result dict of `PQFE.decrypt_and_verify` (api.py lines 469-509). -/
structure DecryptVerifyResult where
  verified : Bool
  decrypted_data : Option Bytes
  decrypted_file_path : Option String
  deriving DecidableEq, Repr

/-- `PQFE.decrypt_file` (api.py lines 210-215): require a private key,
then delegate to `self.encryptor.decrypt_file` with six positional
arguments and the keyword argument `encrypted_data`.  `delegateBody` is
the value the delegated body would produce if the call bound — the
theorem below holds for every such body, so the body of the (broken)
delegate needs no further modelling. -/
def pqfe_decrypt_file (delegateBody : Except PyErr DecryptFileResult)
    (private_key : Option Bytes) : Except PyErr DecryptFileResult :=
  match private_key with
  | none => .error (.valueError "Private key is required for decryption.")
  | some _ =>
    match classLookup kyberEncryptionMethods "decrypt_file" with
    | none => .error (.attributeError "decrypt_file")
    | some sig =>
      if bindOk sig 6 ["encrypted_data"] then delegateBody
      else .error (.typeError
        "decrypt_file() takes from 3 to 6 positional arguments but 7 were given")

/-- `PQFE.encrypt_file` (api.py lines 205-208): delegate to
`self.encryptor.encrypt_file` with five positional arguments. -/
def pqfe_encrypt_file (delegateBody : Except PyErr EncryptFileResult) :
    Except PyErr EncryptFileResult :=
  match classLookup kyberEncryptionMethods "encrypt_file" with
  | none => .error (.attributeError "encrypt_file")
  | some sig =>
    if bindOk sig 5 [] then delegateBody
    else .error (.typeError
      "encrypt_file() takes from 3 to 5 positional arguments but 6 were given")

/-- `DilithiumSignature.sign_data` (dilithium_signatures.py lines 43-59):
hash with SHA3-384, then sign the digest with the external `oqs` signer. -/
def sign_data (oqsSign : Bytes → Bytes → Bytes) (sha3_384 : Bytes → Bytes)
    (data private_key : Bytes) : Bytes :=
  oqsSign (sha3_384 data) private_key

/-- `DilithiumSignature.sign_file` (lines 84-100): read the file content
and sign it; `file_content` is the content read. -/
def sign_file (oqsSign : Bytes → Bytes → Bytes) (sha3_384 : Bytes → Bytes)
    (file_content private_key : Bytes) : Bytes :=
  sign_data oqsSign sha3_384 file_content private_key

/-- `PQFE.encrypt_and_sign` (api.py lines 422-452): sign the original
file first, then run `PQFE.encrypt_file` and add the signature to its
result dict. -/
def pqfe_encrypt_and_sign (delegateBody : Except PyErr EncryptFileResult)
    (oqsSign : Bytes → Bytes → Bytes) (sha3_384 : Bytes → Bytes)
    (file_content signature_private_key : Bytes) :
    Except PyErr EncryptSignResult :=
  let signature := sign_file oqsSign sha3_384 file_content signature_private_key
  match pqfe_encrypt_file delegateBody with
  | .error e => .error e
  | .ok er => .ok ⟨er.ciphertext, er.encrypted_data, er.encrypted_file_path, signature⟩

/-- `PQFE.decrypt_and_verify`, lines 483-509: the continuation after the
inner `decrypt_file` call, from `decrypt_result.get("decrypted_data")`
on.  A falsy payload (`None` or `b""`) raises `ValueError("Decryption
failed")`; otherwise the signature is verified over the recovered
plaintext (`verify_data` is `DilithiumSignature.verify_signature`'s
boolean, proved total in `verify_signature_never_raises`) and the result
dict is assembled, writing a decrypted file when `return_as_data` is
false and no file was written by the inner call. -/
def decrypt_and_verify_rest (verify_data : Bytes → Bytes → Bytes → Bool)
    (encrypted_file : String) (signature verification_public_key : Bytes)
    (return_as_data : Bool) (decrypt_result : DecryptFileResult) :
    Except PyErr DecryptVerifyResult :=
  match decrypt_result.decrypted_data with
  | none => .error (.valueError "Decryption failed")
  | some decrypted_data =>
    if decrypted_data.isEmpty then .error (.valueError "Decryption failed")
    else
      let verified := verify_data decrypted_data signature verification_public_key
      if return_as_data then .ok ⟨verified, some decrypted_data, none⟩
      else
        match decrypt_result.decrypted_file_path with
        | some p => .ok ⟨verified, none, some p⟩
        | none =>
          let output_filename := encrypted_file.replace ".enc" ""
          let output_dir :=
            String.intercalate "/" ((encrypted_file.splitOn "/").dropLast)
          .ok ⟨verified, none,
            some ((output_dir ++ "/" ++ output_filename).replace ".enc" "")⟩

/-- `PQFE.decrypt_and_verify` (api.py lines 454-509): first decrypt via
`PQFE.decrypt_file` (with `return_as_data=True` and the `encrypted_data`
keyword), then run the verification continuation. -/
def pqfe_decrypt_and_verify (delegateBody : Except PyErr DecryptFileResult)
    (verify_data : Bytes → Bytes → Bytes → Bool) (encrypted_file : String)
    (signature : Bytes) (encryption_private_key : Option Bytes)
    (verification_public_key : Bytes) (return_as_data : Bool) :
    Except PyErr DecryptVerifyResult :=
  match pqfe_decrypt_file delegateBody encryption_private_key with
  | .error e => .error e
  | .ok decrypt_result =>
      decrypt_and_verify_rest verify_data encrypted_file signature
        verification_public_key return_as_data decrypt_result

/-- C3 (code bug): for every private key and every possible behaviour of
the delegated decryption body, `PQFE.decrypt_and_verify` raises
`TypeError` from its very first step — `PQFE.decrypt_file` passes six
positional arguments and an `encrypted_data` keyword to the effective
(later) definition of `KyberEncryption.decrypt_file`, which accepts at
most five positional parameters and no `encrypted_data` — so the
operation never returns a decrypted payload or a verification result. -/
theorem decrypt_and_verify_always_type_error
    (delegateBody : Except PyErr DecryptFileResult)
    (verify_data : Bytes → Bytes → Bytes → Bool) (encrypted_file : String)
    (signature k verification_public_key : Bytes) (return_as_data : Bool) :
    pqfe_decrypt_and_verify delegateBody verify_data encrypted_file signature
        (some k) verification_public_key return_as_data =
      .error (.typeError
        "decrypt_file() takes from 3 to 6 positional arguments but 7 were given") :=
  rfl

/-- C4 (code bug): for every file content, signing key and every possible
behaviour of the delegated encryption body, `PQFE.encrypt_and_sign`
computes the signature over the original plaintext first, but the
subsequent `PQFE.encrypt_file` step passes five positional arguments to
`KyberEncryption.encrypt_file`, which accepts at most four, so the whole
operation raises `TypeError` and never returns an envelope or the
signature. -/
theorem encrypt_and_sign_always_type_error
    (delegateBody : Except PyErr EncryptFileResult)
    (oqsSign : Bytes → Bytes → Bytes) (sha3_384 : Bytes → Bytes)
    (file_content signature_private_key : Bytes) :
    pqfe_encrypt_and_sign delegateBody oqsSign sha3_384 file_content
        signature_private_key =
      .error (.typeError
        "encrypt_file() takes from 3 to 5 positional arguments but 6 were given") :=
  rfl

/-- C10: in the continuation of `PQFE.decrypt_and_verify` after the inner
decryption (api.py lines 483-486), a successfully recovered EMPTY payload
is caught by the falsy check `if not decrypted_data` and raises
`ValueError("Decryption failed")` instead of returning the payload with a
verification result. -/
theorem decrypt_and_verify_empty_payload_value_error
    (verify_data : Bytes → Bytes → Bytes → Bool) (encrypted_file : String)
    (signature verification_public_key : Bytes) (return_as_data : Bool)
    (decrypt_result : DecryptFileResult)
    (h : decrypt_result.decrypted_data = some []) :
    decrypt_and_verify_rest verify_data encrypted_file signature
        verification_public_key return_as_data decrypt_result =
      .error (.valueError "Decryption failed") := by
  unfold decrypt_and_verify_rest
  rw [h]
  rfl

/-- Closed witness for `decrypt_and_verify_empty_payload_value_error` at
a concrete empty decrypted payload. -/
theorem decrypt_and_verify_empty_payload_value_error_witness :
    decrypt_and_verify_rest (fun _ _ _ => true) "f.enc" [1] [2] true
      ⟨some [], none⟩ = .error (.valueError "Decryption failed") :=
  decrypt_and_verify_empty_payload_value_error (fun _ _ _ => true) "f.enc"
    [1] [2] true ⟨some [], none⟩ rfl
